import Mathlib

set_option maxRecDepth 8000

/-!
Shallow embedding of the rozenite-hermes-profiler repository.

The repository has three components:
* `server/registerDevServerMiddleware.cjs` — an HTTP middleware with a
  transform endpoint, a validated profile-serving endpoint backed by a
  filename-to-path cache, an open endpoint that registers cache entries,
  and an idempotent server-start function;
* `src/react-native/useHermesProfilerDevTools.ts` — the in-app runtime
  handlers for `start-profiling` / `stop-profiling` messages;
* `src/profiler-panel.tsx` — the DevTools panel UI state machine.

Stateful JavaScript is modelled by explicit state passing; external effects
(the filesystem, the spawned CLI, the native profiler, RNFS) are parameters
of the embedded functions.
-/

namespace HermesProfiler

/-! ## String utilities (JavaScript `split`, Node `path.basename`, suffix ops) -/

/-- `String.prototype.split(sep)` for a single-character separator, over the
character list of the string.  `splitChar sep []` is `[[]]`, matching
`''.split(sep) === ['']` in JavaScript. -/
def splitChar (sep : Char) : List Char → List (List Char)
  | [] => [[]]
  | c :: rest =>
    let r := splitChar sep rest
    if c = sep then [] :: r
    else
      match r with
      | s :: ss => (c :: s) :: ss
      | [] => [[c]]

/-- Consume a literal character sequence from the front of a list, returning
the remainder, or `none` when the list does not start with the literal. -/
def dropLit : List Char → List Char → Option (List Char)
  | [], l => some l
  | _ :: _, [] => none
  | p :: ps, c :: cs => if c = p then dropLit ps cs else none

/-- Strip a literal suffix from a character list. -/
def dropSuffixChars (suf l : List Char) : Option (List Char) :=
  (dropLit suf.reverse l.reverse).map List.reverse

/-- Node `path.basename` (POSIX): the last nonempty slash-separated
component, or the empty string when there is none. -/
def basename (p : String) : String :=
  match ((splitChar '/' p.data).filter (fun seg => !seg.isEmpty)).getLast? with
  | some seg => String.mk seg
  | none => ""

/-- Node `path.join(dir, name)` restricted to the shapes used here. -/
def joinPath (dir name : String) : String :=
  if dir = "" then name
  else if dir.data.getLast? = some '/' then dir ++ name
  else dir ++ "/" ++ name

/-! ## The profile filename pattern

The serving endpoint validates `req.params.filename` against
`/^profile-[A-F0-9-]+-\d+-[A-F0-9]+-converted\.json$/`. -/

/-- Character class `[A-F0-9]`. -/
def isUpHex (c : Char) : Bool := c.isDigit || (decide ('A' ≤ c) && decide (c ≤ 'F'))

/-- Matcher for the middle part `[A-F0-9-]+-\d+-[A-F0-9]+` of the filename
pattern.  Because the digit run and the final hex run cannot contain a dash,
any match decomposes uniquely at the last two dashes of the middle part:
the last dash-separated segment is the `[A-F0-9]+` run, the one before it is
the `\d+` run, and everything earlier (dashes included) is the `[A-F0-9-]+`
run, which must be nonempty. -/
def profilePatternCore (mid : List Char) : Bool :=
  match (splitChar '-' mid).reverse with
  | h :: d :: restA =>
      !h.isEmpty && h.all isUpHex &&
      !d.isEmpty && d.all Char.isDigit &&
      !restA.isEmpty && restA.all (fun seg => seg.all isUpHex) &&
      (decide (2 ≤ restA.length) || !(restA.headD []).isEmpty)
  | _ => false

/-- The regex test `/^profile-[A-F0-9-]+-\d+-[A-F0-9]+-converted\.json$/`. -/
def profilePattern (s : String) : Bool :=
  match dropLit "profile-".data s.data with
  | none => false
  | some rest =>
    match dropSuffixChars "-converted.json".data rest with
    | none => false
    | some mid => profilePatternCore mid

/-! ## Server: profile cache, serving endpoint, open endpoint -/

/-- `Map.prototype.get` over the association-list model of
`profilePathCache`; the most recent `set` for a key is at the front. -/
def cacheGet : List (String × String) → String → Option String
  | [], _ => none
  | (k, v) :: rest, fn => if k = fn then some v else cacheGet rest fn

/-- The `POST /rozenite/hermes/open` handler, restricted to its effect on
the cache and its HTTP status.  A missing/empty `path` is rejected with 400
before the cache is touched; otherwise `profilePathCache.set(basename(path),
path)` runs, and the status is 200 unless launching Chrome fails (500) —
the cache update happens either way. -/
def openEndpoint (cache : List (String × String)) (filePath : String)
    (openOk : Bool) : List (String × String) × Nat :=
  if filePath = "" then (cache, 400)
  else ((basename filePath, filePath) :: cache, if openOk then 200 else 500)

/-- The cache contents produced by a sequence of open requests (earliest
first), starting from the empty cache the middleware initializes. -/
def cacheFromOpens (opens : List String) : List (String × String) :=
  opens.foldl (fun c p => (openEndpoint c p true).1) []

/-- Outcome of `GET /rozenite/hermes/profile/:filename`. -/
inductive ServeResult where
  /-- 200 with the file content. -/
  | ok (body : String)
  /-- 400 `invalid_filename`. -/
  | invalidFilename
  /-- 404 `not_found`. -/
  | notFound
deriving DecidableEq

/-- The serving endpoint.  `fsR` models the filesystem: `fsR p = some c`
means the path exists (`fs.existsSync`) and reads as `c`
(`fs.readFileSync`).  The source rejects a non-matching filename with 400,
then a missing cache entry, a falsy (empty) cached path, or a nonexistent
cached path with 404. -/
def serveProfile (cache : List (String × String)) (fsR : String → Option String)
    (filename : String) : ServeResult :=
  if profilePattern filename then
    match cacheGet cache filename with
    | none => .notFound
    | some p =>
      if p = "" then .notFound
      else
        match fsR p with
        | none => .notFound
        | some content => .ok content
  else .invalidFilename

/-! ## Server: module-level start function (`startHermesProfilerServer`) -/

/-- The module-level mutable state: `let started = false; let serverPort;`. -/
structure ModuleState where
  started : Bool
  serverPort : Option Nat
deriving DecidableEq

/-- The value returned to the caller: `{ port, server }`, where `server`
records whether a (non-null) server handle was returned. -/
structure StartReturn where
  port : Option Nat
  server : Bool
deriving DecidableEq

/-- Side effects of one call: whether `./config.mjs` was imported and
whether `server.listen` was invoked. -/
structure StartEffects where
  configRead : Bool
  listenStarted : Bool
deriving DecidableEq

/-- `startHermesProfilerServer`: an already-started module returns
`{ port: serverPort, server: null }` immediately; the first call sets the
flag, reads the configured port, starts the listener and returns the
handle. -/
def startHermesProfilerServer (DEFAULT_PORT : Nat) (st : ModuleState) :
    ModuleState × StartReturn × StartEffects :=
  if st.started then
    (st, { port := st.serverPort, server := false },
     { configRead := false, listenStarted := false })
  else
    ({ started := true, serverPort := some DEFAULT_PORT },
     { port := some DEFAULT_PORT, server := true },
     { configRead := true, listenStarted := true })

/-! ## Server: transform endpoint (`POST /rozenite/hermes/transform`) -/

/-- The base64 alphabet used by `Buffer.prototype.toString('base64')`. -/
def base64Alphabet : List Char :=
  "ABCDEFGHIJKLMNOPQRSTUVWXYZabcdefghijklmnopqrstuvwxyz0123456789+/".data

/-- Look up a 6-bit value in the base64 alphabet. -/
def b64c (n : Nat) : Char := base64Alphabet.getD n 'A'

/-- Standard base64 of a byte sequence (bytes given as naturals below 256),
with `=` padding. -/
def base64Chunks : List Nat → List Char
  | [] => []
  | [a] => [b64c (a / 4), b64c (a % 4 * 16), '=', '=']
  | [a, b] => [b64c (a / 4), b64c (a % 4 * 16 + b / 16), b64c (b % 16 * 4), '=']
  | a :: b :: c :: rest =>
      b64c (a / 4) :: b64c (a % 4 * 16 + b / 16) :: b64c (b % 16 * 4 + c / 64) ::
        b64c (c % 64) :: base64Chunks rest

/-- UTF-8 encoding of one code point, as naturals below 256. -/
def utf8Bytes (c : Char) : List Nat :=
  let n := c.toNat
  if n < 128 then [n]
  else if n < 2048 then [192 + n / 64, 128 + n % 64]
  else if n < 65536 then [224 + n / 4096, 128 + n / 64 % 64, 128 + n % 64]
  else [240 + n / 262144, 128 + n / 4096 % 64, 128 + n / 64 % 64, 128 + n % 64]

/-- `Buffer.from(s, 'utf8').toString('base64')`. -/
def base64Encode (s : String) : String :=
  String.mk (base64Chunks (s.data.map utf8Bytes).flatten)

/-- `originalFilename.replace(/\.cpuprofile$/, '-converted.json')`. -/
def convertedFilenameOf (name : String) : String :=
  match dropSuffixChars ".cpuprofile".data name.data with
  | some stem => String.mk stem ++ "-converted.json"
  | none => name

/-- Result of the spawned `npx react-native-release-profiler --local` child
process: exit code and accumulated stdout / stderr. -/
structure SpawnResult where
  code : Int
  stdout : String
  stderr : String
deriving DecidableEq

/-- The JSON body of a transform response (and, on the panel side, the
result of `res.json()`; a parse failure yields the all-absent record). -/
structure TransformJson where
  ok : Option Bool := none
  error : Option String := none
  stderr : Option String := none
  outputPath : Option String := none
  outputFilename : Option String := none
  outputBase64 : Option String := none
  mime : Option String := none
  stdout : Option String := none
deriving DecidableEq

/-- An HTTP response of the transform endpoint: status code and JSON body. -/
structure TransformResp where
  status : Nat
  json : TransformJson
deriving DecidableEq

/-- The `POST /rozenite/hermes/transform` handler (through the child
process `close` event).  `rawPath` is `req.body.path` reduced to `''` when
missing or not a string; `readF` models `fs.readFileSync` on the expected
output path (`.error msg` models a thrown exception with message `msg`). -/
def transformEndpoint (rawPath : String) (spawnRes : SpawnResult) (cwd : String)
    (readF : String → Except String String) : TransformResp :=
  if rawPath = "" then { status := 400, json := { error := some "missing_path" } }
  else if spawnRes.code ≠ 0 then
    { status := 500,
      json := { error := some "transform_failed", stderr := some spawnRes.stderr } }
  else
    let convertedFilename := convertedFilenameOf (basename rawPath)
    let outputPath := joinPath cwd convertedFilename
    match readF outputPath with
    | .ok content =>
        { status := 200,
          json := { ok := some true, outputPath := some outputPath,
                    outputFilename := some convertedFilename,
                    outputBase64 := some (base64Encode content),
                    mime := some "application/json",
                    stdout := some spawnRes.stdout } }
    | .error msg => { status := 500, json := { error := some msg } }

/-! ## Runtime hook (`useHermesProfilerDevTools`) -/

/-- The payload of a `profile-data` event; every field is optional in the
source interface. -/
structure ProfileData where
  filename : Option String := none
  path : Option String := none
  base64 : Option String := none
  size : Option Nat := none
  mime : Option String := none
  error : Option String := none
deriving DecidableEq

/-- An event sent from the runtime to the panel over the plugin bridge. -/
inductive ProfilerEvent where
  /-- `profiling-started` with its `timestamp` payload. -/
  | started (timestamp : Nat)
  /-- `profile-data` with its payload. -/
  | data (d : ProfileData)
deriving DecidableEq

/-- Result of the `start-profiling` handler: whether the external
`startProfiling()` was invoked, and the events sent. -/
structure StartHandlerResult where
  calledStartProfiling : Bool
  sends : List ProfilerEvent
deriving DecidableEq

/-- The `start-profiling` handler.  `startRes` is the outcome of the
external `startProfiling()` call (`.error msg`: it threw, with
`String(e?.message || e) = msg`); `now` is `Date.now()` at the send. -/
def subStart (startRes : Except String Unit) (now : Nat) : StartHandlerResult :=
  match startRes with
  | .ok _ => { calledStartProfiling := true, sends := [.started now] }
  | .error e => { calledStartProfiling := true, sends := [.data { error := some e }] }

/-- The `Promise.race` between `stopProfiling(saveInDownloads)` and the
9-second rejection timer.  `outcome` is how the external `stopProfiling`
promise settles and `resolveMs` when (in milliseconds after the handler
starts); if it has not settled before 9000 ms the timer rejects with
`Error('Profiler timeout')`, which the handler's catch stringifies to its
message. -/
def stopRace (outcome : Except String String) (resolveMs : Nat) :
    Except String String :=
  if resolveMs < 9000 then outcome else .error "Profiler timeout"

/-- `path?.split('/')?.pop?.() || 'hermes-profile.trace'`. -/
def stopFilename (path : String) : String :=
  match (splitChar '/' path.data).getLast? with
  | some seg => if seg.isEmpty then "hermes-profile.trace" else String.mk seg
  | none => "hermes-profile.trace"

/-- The `stop-profiling` handler: the list of events it sends.
`raceResult` is the settled value of the race above; `rnfsAvailable` models
`RNFS?.readFile` being present; `readF` models `RNFS.readFile(path,
'base64')` (`none`: it threw) and `statF` the subsequent
`Number((await RNFS.stat(path)).size || 0)` (`none`: `stat` threw).  When
`readF` succeeds but `statF` throws, the base64 payload is kept and the
size stays undefined, mirroring the sequential assignments inside the inner
`try`. -/
def subStop (raceResult : Except String String) (rnfsAvailable : Bool)
    (readF : String → Option String) (statF : String → Option Nat) :
    List ProfilerEvent :=
  match raceResult with
  | .error e => [.data { error := some e }]
  | .ok path =>
      [.data { filename := some (stopFilename path), path := some path,
               base64 := (if (path != "") && rnfsAvailable then readF path else none),
               size := (if (path != "") && rnfsAvailable then
                          (match readF path with
                           | some _ => statF path
                           | none => none)
                        else none),
               mime := some "application/octet-stream" }]

/-! ## Panel (`profiler-panel.tsx`): UI state and handlers -/

/-- A row of the panel's `traces` list.  The TypeScript type declares
`filename : string`, but the handler assigns `data.filename`, which may be
undefined, so the field is optional here. -/
structure CapturedTrace where
  id : String
  receivedAt : Nat
  filename : Option String := none
  path : Option String := none
  size : Option Nat := none
  error : Option String := none
  transforming : Option Bool := none
  transformError : Option String := none
  transformedPath : Option String := none
deriving DecidableEq

/-- The panel's React state plus the `pendingStopTimer` ref.  `nextTimerId`
generates fresh `setTimeout` handles. -/
structure PanelState where
  isProfiling : Bool
  isStopping : Bool
  pendingStopTimer : Option Nat
  statusMsg : Option String
  traces : List CapturedTrace
  nextTimerId : Nat
deriving DecidableEq

/-- The initial panel state (`useState(false)`, `useState(false)`,
`useRef(null)`, `useState(null)`, `useState([])`). -/
def initialPanelState : PanelState :=
  { isProfiling := false, isStopping := false, pendingStopTimer := none,
    statusMsg := none, traces := [], nextTimerId := 0 }

/-- A message sent from the panel to the runtime over the plugin bridge. -/
inductive PanelMsg where
  | startProfiling
  | stopProfiling (saveInDownloads : Bool)
deriving DecidableEq

/-- The `onStart` callback (with the bridge client present): a no-op while
already profiling, otherwise it sets the profiling flag, the status
message, and sends `start-profiling`. -/
def onStart (s : PanelState) : PanelState × Option PanelMsg :=
  if s.isProfiling then (s, none)
  else ({ s with isProfiling := true, statusMsg := some "Profiling started" },
        some .startProfiling)

/-- The `onStop` callback (with the bridge client present): a no-op while a
stop is already pending, otherwise it sets the stopping flag, clears the
profiling flag, replaces any pending stop timer with a fresh 10-second one,
and sends `stop-profiling` with `saveInDownloads: false`. -/
def onStop (s : PanelState) : PanelState × Option PanelMsg :=
  if s.isStopping then (s, none)
  else ({ s with isStopping := true, isProfiling := false,
                 statusMsg := some "Stopping…",
                 pendingStopTimer := some s.nextTimerId,
                 nextTimerId := s.nextTimerId + 1 },
        some (.stopProfiling false))

/-- A press of the single control button, as wired in the JSX:
`disabled={isStopping}` and `onPress={isProfiling ? onStop : onStart}`. -/
def press (s : PanelState) : PanelState × Option PanelMsg :=
  if s.isStopping then (s, none)
  else if s.isProfiling then onStop s else onStart s

/-- The `profiling-started` handler: `setIsProfiling(true)` and nothing
else. -/
def subStarted (s : PanelState) : PanelState :=
  { s with isProfiling := true }

/-- JavaScript truthiness of an optional string (`undefined` and `''` are
falsy). -/
def strTruthy : Option String → Bool
  | some s => s != ""
  | none => false

/-- The synchronous part of the `profile-data` handler: clear the pending
stop timer, leave the stopping and profiling states, then record the trace
row and status.  When `data.path` is truthy the transform request is issued
asynchronously (modelled separately by `tryEndpoints`); when it is absent
the placeholder row is immediately rewritten with a transform error. -/
def subData (s : PanelState) (d : ProfileData) (now : Nat) : PanelState :=
  let cleared : PanelState :=
    { s with pendingStopTimer := none, isStopping := false, isProfiling := false }
  let id := toString now
  if strTruthy d.error then
    { cleared with
        traces := { id := id, receivedAt := now, filename := d.filename,
                    error := d.error } :: cleared.traces,
        statusMsg := some ("Error: " ++ d.error.getD "") }
  else
    let placeholder : CapturedTrace :=
      { id := id, receivedAt := now, filename := d.filename, path := d.path,
        transforming := some true }
    let noPathRow : CapturedTrace :=
      { placeholder with transforming := some false,
                         transformError := some "No path returned" }
    if strTruthy d.path then
      { cleared with statusMsg := some "Transforming profile…",
                     traces := placeholder :: cleared.traces }
    else
      { cleared with statusMsg := some "No path to transform",
                     traces := noPathRow :: cleared.traces }

/-- Expiry of the 10-second stop timer with handle `id`: it runs only while
that handle is still the pending one (otherwise it was cleared), and then
leaves the stopping state.  The ref itself is not nulled by the callback,
matching the source. -/
def stopTimerFire (s : PanelState) (id : Nat) : PanelState :=
  if s.pendingStopTimer = some id then
    { s with isStopping := false,
             statusMsg := some "No response from device. Check app logs." }
  else s

/-! ## Panel: transform polling (`tryEndpoints`) -/

/-- Outcome of one `fetch` to a transform URL: either the fetch threw
(`msg` is `e?.message || String(e)`), or a response arrived with `res.ok`,
`res.status`, and the parsed body (`{}` when parsing failed). -/
inductive FetchOutcome where
  | thrown (msg : String)
  | resp (resOk : Bool) (status : Nat) (json : TransformJson)
deriving DecidableEq

/-- The loop's success condition: `res.ok` and not `json?.ok === false`. -/
def fetchSuccess : FetchOutcome → Bool
  | .thrown _ => false
  | .resp resOk _ j => resOk && !(j.ok == some false)

/-- The error recorded for a failed candidate:
`json?.stderr || json?.error || `HTTP ${res.status}`` for a response, and
the thrown message otherwise. -/
def orFalsy (o : Option String) (d : String) : String :=
  match o with
  | some s => if s = "" then d else s
  | none => d

/-- Error text recorded in `lastErr` for a failed candidate. -/
def fetchFailMsg : FetchOutcome → String
  | .thrown msg => msg
  | .resp _ status j => orFalsy j.stderr (orFalsy j.error ("HTTP " ++ toString status))

/-- The parsed body of a response (irrelevant placeholder for a throw). -/
def fetchJson : FetchOutcome → TransformJson
  | .thrown _ => {}
  | .resp _ _ j => j

/-- Result of `tryEndpoints`: `{ ok: true, json }` or
`{ ok: false, error: lastErr }` (where `lastErr` starts as `null`). -/
inductive TryResult where
  | ok (json : TransformJson)
  | fail (error : Option String)
deriving DecidableEq

/-- The `for (const url of candidates)` loop, returning the result together
with the list of URLs actually fetched, in order. -/
def tryLoop (f : String → FetchOutcome) :
    List String → Option String → TryResult × List String
  | [], lastErr => (.fail lastErr, [])
  | url :: rest, _ =>
      if fetchSuccess (f url) then (.ok (fetchJson (f url)), [url])
      else
        let r := tryLoop f rest (some (fetchFailMsg (f url)))
        (r.1, url :: r.2)

/-- The first candidate URL: `localhost` on the configured port. -/
def localhostCandidate (port : Nat) : String :=
  "http://localhost:" ++ toString port ++ "/rozenite/hermes/transform"

/-- The second candidate URL: `127.0.0.1` on the configured port. -/
def loopbackCandidate (port : Nat) : String :=
  "http://127.0.0.1:" ++ toString port ++ "/rozenite/hermes/transform"

/-- The candidate URLs, in source order: `localhost` then `127.0.0.1` on
the configured port. -/
def transformCandidates (port : Nat) : List String :=
  [localhostCandidate port, loopbackCandidate port]

/-- `tryEndpoints` from the `profile-data` handler, with `f` modelling the
network. -/
def tryEndpoints (port : Nat) (f : String → FetchOutcome) :
    TryResult × List String :=
  tryLoop f (transformCandidates port) none

/-- A fetch answered by the transform endpoint itself (both candidate
addresses reach the same local server): `res.ok` is true exactly for 2xx
statuses. -/
def serverFetch (rawPath : String) (spawnRes : SpawnResult) (cwd : String)
    (readF : String → Except String String) : FetchOutcome :=
  let r := transformEndpoint rawPath spawnRes cwd readF
  .resp (decide (200 ≤ r.status) && decide (r.status < 300)) r.status r.json

/-! ## Panel–runtime system (for reachability of panel states)

The bridge delivers runtime events asynchronously: a press sends a message,
the runtime handler replies immediately, and the replies queue in the
panel's inbox until delivered. -/

/-- Panel state together with the runtime→panel events still in flight. -/
structure SysState where
  panel : PanelState
  inbox : List ProfilerEvent
deriving DecidableEq

/-- Deliver one bridge event to the panel's subscriptions. -/
def applyEvent (now : Nat) (s : PanelState) : ProfilerEvent → PanelState
  | .started _ => subStarted s
  | .data d => subData s d now

/-- A button press; the runtime's reply (if a message is sent) is appended
to the in-flight queue. -/
def sysPress (reply : PanelMsg → List ProfilerEvent) (st : SysState) : SysState :=
  let pm := press st.panel
  { panel := pm.1,
    inbox := st.inbox ++ (match pm.2 with
                          | some msg => reply msg
                          | none => []) }

/-- Deliver the oldest in-flight event, if any. -/
def sysDeliver (now : Nat) (st : SysState) : SysState :=
  match st.inbox with
  | [] => st
  | e :: rest => { panel := applyEvent now st.panel e, inbox := rest }

/-! ## Supporting lemmas -/

/-- Anything found in a cache built by a sequence of open requests was
either in the starting cache or registered by one of the opens, under its
basename, with a nonempty path. -/
theorem cacheGet_foldl_opens (opens : List String) :
    ∀ (acc : List (String × String)) (fn p : String),
      cacheGet (opens.foldl (fun c q => (openEndpoint c q true).1) acc) fn = some p →
      cacheGet acc fn = some p ∨ (p ∈ opens ∧ basename p = fn ∧ p ≠ "") := by
  induction opens with
  | nil => exact fun acc fn p h => Or.inl h
  | cons x xs ih =>
    intro acc fn p h
    rw [List.foldl_cons] at h
    rcases ih _ fn p h with h' | h'
    · by_cases hx : x = ""
      · exact Or.inl (by simpa [openEndpoint, hx] using h')
      · rw [show (openEndpoint acc x true).1 = (basename x, x) :: acc by
             simp [openEndpoint, hx]] at h'
        by_cases hk : basename x = fn
        · right
          have hpx : p = x := by
            have := h'
            simp only [cacheGet, hk, if_pos] at this
            exact (Option.some.injEq _ _ ▸ this).symm
          subst hpx
          exact ⟨List.mem_cons_self _ _, hk, hx⟩
        · refine Or.inl ?_
          simpa [cacheGet, hk] using h'
    · exact Or.inr ⟨List.mem_cons_of_mem _ h'.1, h'.2⟩

/-- The `profile-data` handler leaves both flags cleared and no pending
timer, in every branch. -/
theorem subData_flags (s : PanelState) (d : ProfileData) (now : Nat) :
    (subData s d now).isProfiling = false ∧ (subData s d now).isStopping = false ∧
    (subData s d now).pendingStopTimer = none := by
  unfold subData
  split
  · exact ⟨rfl, rfl, rfl⟩
  · split
    · exact ⟨rfl, rfl, rfl⟩
    · exact ⟨rfl, rfl, rfl⟩

/-! ## Claims -/

/-- Claim C1: the serving endpoint returns file content only for a
filename that matches the strict pattern, was registered by the open
endpoint, and whose registered path exists on disk; a non-matching
filename is rejected with 400, and a matching filename with no registered
existing path is rejected with 404, so no unregistered path is ever
disclosed. -/
theorem C1_profile_serving (opens : List String) (fsR : String → Option String)
    (fn body : String) :
    (profilePattern fn = false →
       serveProfile (cacheFromOpens opens) fsR fn = .invalidFilename) ∧
    (profilePattern fn = true →
       (cacheGet (cacheFromOpens opens) fn = none →
          serveProfile (cacheFromOpens opens) fsR fn = .notFound) ∧
       (∀ p, cacheGet (cacheFromOpens opens) fn = some p → fsR p = none →
          serveProfile (cacheFromOpens opens) fsR fn = .notFound)) ∧
    (serveProfile (cacheFromOpens opens) fsR fn = .ok body →
       profilePattern fn = true ∧
       ∃ p, p ∈ opens ∧ p ≠ "" ∧ basename p = fn ∧ fsR p = some body) := by
  refine ⟨?_, ?_, ?_⟩
  · intro h
    simp [serveProfile, h]
  · intro h
    refine ⟨fun hc => by simp [serveProfile, h, hc], fun p hc hf => ?_⟩
    by_cases hp : p = "" <;> simp [serveProfile, h, hc, hp, hf]
  · intro h
    by_cases hpat : profilePattern fn = true
    · refine ⟨hpat, ?_⟩
      simp only [serveProfile, hpat, if_true] at h
      rcases hcg : cacheGet (cacheFromOpens opens) fn with _ | p <;> rw [hcg] at h
      · exact absurd h (by simp)
      · dsimp only at h
        by_cases hp : p = ""
        · rw [if_pos hp] at h
          exact absurd h (by simp)
        · rw [if_neg hp] at h
          rcases hf : fsR p with _ | content <;> rw [hf] at h
          · exact absurd h (by simp)
          · have hcb : content = body := by
              simpa using h
            rcases cacheGet_foldl_opens opens [] fn p
                (by simpa [cacheFromOpens] using hcg) with h0 | hreg
            · exact absurd h0 (by simp [cacheGet])
            · exact ⟨p, hreg.1, hreg.2.2, hreg.2.1, by rw [hf, hcb]⟩
    · rw [Bool.not_eq_true] at hpat
      simp [serveProfile, hpat] at h

/-- Concrete opens list for exercising the serving endpoint. -/
def c1Opens : List String := ["/home/dev/profile-AB12-99-FF-converted.json"]

/-- Concrete filesystem for exercising the serving endpoint. -/
def c1Fs : String → Option String := fun p =>
  if p = "/home/dev/profile-AB12-99-FF-converted.json" then some "traceJson" else none

/-- Witness for C1: a non-matching filename is rejected with 400, a
matching but unregistered filename with 404, and a served filename passed
the pattern test. -/
theorem C1_profile_serving_witness :
    serveProfile (cacheFromOpens c1Opens) c1Fs "passwd" = .invalidFilename ∧
    serveProfile (cacheFromOpens c1Opens) c1Fs "profile-FF-1-AA-converted.json" = .notFound ∧
    profilePattern "profile-AB12-99-FF-converted.json" = true :=
  ⟨(C1_profile_serving c1Opens c1Fs "passwd" "x").1 (by decide),
   ((C1_profile_serving c1Opens c1Fs "profile-FF-1-AA-converted.json" "x").2.1
      (by decide)).1 (by decide),
   ((C1_profile_serving c1Opens c1Fs "profile-AB12-99-FF-converted.json" "traceJson").2.2
      (by decide)).1⟩

/-- The event the stop handler sends when the external stop succeeds but
the on-device file read fails. -/
def c2ReadFailEvent : ProfileData :=
  { filename := some "trace.cpuprofile", path := some "/data/trace.cpuprofile",
    mime := some "application/octet-stream" }

/-- Counterexample to claim C2 as stated: when `stopProfiling` resolves
with a path but `RNFS.readFile` throws, the single `profile-data` event
carries neither trace bytes (no base64 payload, no size) nor an error
string. -/
theorem C2_counterexample :
    subStop (Except.ok "/data/trace.cpuprofile") true (fun _ => none) (fun _ => none)
      = [.data c2ReadFailEvent] ∧
    c2ReadFailEvent.base64 = none ∧ c2ReadFailEvent.size = none ∧
    c2ReadFailEvent.error = none :=
  ⟨by decide, rfl, rfl, rfl⟩

/-- Claim C2 (amended): the stop handler sends exactly one `profile-data`
event; on failure it carries only the error string, and on success it
carries the suggested filename, the path and the MIME type, with the
base64 payload present exactly when the path is nonempty, the filesystem
module is available, and the read succeeds — never an error and payload
together, but possibly neither payload nor error. -/
theorem C2_profile_data_shape (raceResult : Except String String)
    (rnfsAvailable : Bool) (readF : String → Option String)
    (statF : String → Option Nat) :
    ∃ e, subStop raceResult rnfsAvailable readF statF = [.data e] ∧
      ((∃ msg, raceResult = Except.error msg ∧ e = { error := some msg }) ∨
       (∃ p, raceResult = Except.ok p ∧ e.error = none ∧
          e.filename = some (stopFilename p) ∧ e.path = some p ∧
          e.mime = some "application/octet-stream" ∧
          e.base64 = (if (p != "") && rnfsAvailable then readF p else none) ∧
          e.size = (if (p != "") && rnfsAvailable then
                      (match readF p with
                       | some _ => statF p
                       | none => none)
                    else none))) := by
  cases raceResult with
  | error msg => exact ⟨_, rfl, Or.inl ⟨msg, rfl, rfl⟩⟩
  | ok p => exact ⟨_, rfl, Or.inr ⟨p, rfl, rfl, rfl, rfl, rfl, rfl, rfl⟩⟩

/-- Claim C3: if the external stop has not resolved within 9000
milliseconds, the race rejects with the timeout error and the handler
sends a `profile-data` event whose error is the timeout message. -/
theorem C3_stop_timeout (outcome : Except String String) (extraMs : Nat)
    (rnfsAvailable : Bool) (readF : String → Option String)
    (statF : String → Option Nat) :
    subStop (stopRace outcome (9000 + extraMs)) rnfsAvailable readF statF
      = [.data { error := some "Profiler timeout" }] := by
  have h : ¬(9000 + extraMs < 9000) := by omega
  simp [stopRace, h, subStop]

/-- Claim C4: every `profile-data` event — success or error — leaves the
panel with both the profiling and the stopping flag false and no pending
stop timer. -/
theorem C4_idle_after_profile_data (s : PanelState) (d : ProfileData) (now : Nat) :
    (subData s d now).isProfiling = false ∧ (subData s d now).isStopping = false ∧
    (subData s d now).pendingStopTimer = none :=
  subData_flags s d now

/-- Claim C5: invoking the stop action while the stopping flag is true is
a complete no-op (no state change, no message); invoking it while the flag
is false sends exactly the `stop-profiling` message and sets the flag. -/
theorem C5_single_outstanding_stop (s : PanelState) :
    onStop { s with isStopping := true } = ({ s with isStopping := true }, none) ∧
    (onStop { s with isStopping := false }).2 = some (PanelMsg.stopProfiling false) ∧
    (onStop { s with isStopping := false }).1.isStopping = true := by
  refine ⟨?_, ?_, ?_⟩ <;> simp [onStop]

/-- A 2xx transform response always carries the converted payload, the
output filename, and `ok: true`. -/
theorem serverFetch_success_fields (rawPath : String) (spawnRes : SpawnResult)
    (cwd : String) (readF : String → Except String String)
    (h : fetchSuccess (serverFetch rawPath spawnRes cwd readF) = true) :
    (fetchJson (serverFetch rawPath spawnRes cwd readF)).outputBase64.isSome = true ∧
    (fetchJson (serverFetch rawPath spawnRes cwd readF)).outputFilename.isSome = true ∧
    (fetchJson (serverFetch rawPath spawnRes cwd readF)).ok = some true := by
  unfold serverFetch transformEndpoint at h ⊢
  by_cases h1 : rawPath = ""
  · simp [h1, fetchSuccess] at h
  · by_cases h2 : spawnRes.code ≠ 0
    · simp [h1, h2, fetchSuccess] at h
    · rcases hr : readF (joinPath cwd (convertedFilenameOf (basename rawPath)))
          with msg | content
      · simp [h1, h2, hr, fetchSuccess] at h
      · simp [h1, h2, hr, fetchJson]

/-- Claim C6: the transform request tries `localhost` then `127.0.0.1`, in
order, stopping at the first successful response; when the responses come
from the transform endpoint, a success result carries the converted base64
payload and the output filename; only when every candidate fails does the
attempt resolve as a failure carrying the last recorded error. -/
theorem C6_transform_polling (port : Nat) (f : String → FetchOutcome)
    (hsrv : ∀ u, ∃ rawPath spawnRes cwd readF,
        f u = serverFetch rawPath spawnRes cwd readF) :
    (fetchSuccess (f (localhostCandidate port)) = true →
       tryEndpoints port f
         = (.ok (fetchJson (f (localhostCandidate port))), [localhostCandidate port])) ∧
    (fetchSuccess (f (localhostCandidate port)) = false →
     fetchSuccess (f (loopbackCandidate port)) = true →
       tryEndpoints port f
         = (.ok (fetchJson (f (loopbackCandidate port))),
            [localhostCandidate port, loopbackCandidate port])) ∧
    (fetchSuccess (f (localhostCandidate port)) = false →
     fetchSuccess (f (loopbackCandidate port)) = false →
       tryEndpoints port f
         = (.fail (some (fetchFailMsg (f (loopbackCandidate port)))),
            [localhostCandidate port, loopbackCandidate port])) ∧
    (∀ j tried, tryEndpoints port f = (.ok j, tried) →
       j.outputBase64.isSome = true ∧ j.outputFilename.isSome = true) := by
  have key : ∀ u, fetchSuccess (f u) = true →
      (fetchJson (f u)).outputBase64.isSome = true ∧
      (fetchJson (f u)).outputFilename.isSome = true := by
    intro u hu
    obtain ⟨r, sp, c, rf, he⟩ := hsrv u
    rw [he] at hu ⊢
    exact ⟨(serverFetch_success_fields r sp c rf hu).1,
           (serverFetch_success_fields r sp c rf hu).2.1⟩
  refine ⟨?_, ?_, ?_, ?_⟩
  · intro h1
    simp [tryEndpoints, transformCandidates, tryLoop, h1]
  · intro h1 h2
    simp [tryEndpoints, transformCandidates, tryLoop, h1, h2]
  · intro h1 h2
    simp [tryEndpoints, transformCandidates, tryLoop, h1, h2]
  · intro j tried h
    by_cases h1 : fetchSuccess (f (localhostCandidate port)) = true
    · simp [tryEndpoints, transformCandidates, tryLoop, h1] at h
      exact h.1 ▸ key _ h1
    · rw [Bool.not_eq_true] at h1
      by_cases h2 : fetchSuccess (f (loopbackCandidate port)) = true
      · simp [tryEndpoints, transformCandidates, tryLoop, h1, h2] at h
        exact h.1 ▸ key _ h2
      · rw [Bool.not_eq_true] at h2
        simp [tryEndpoints, transformCandidates, tryLoop, h1, h2] at h

/-- Concrete spawn result for exercising the transform composition. -/
def c6Spawn : SpawnResult := { code := 0, stdout := "done", stderr := "" }

/-- Concrete output-file read for exercising the transform composition. -/
def c6Read : String → Except String String := fun _ => .ok "TRACE"

/-- A network where both candidate addresses reach the transform endpoint. -/
def c6Fetch : String → FetchOutcome :=
  fun _ => serverFetch "/tmp/app.cpuprofile" c6Spawn "/work" c6Read

/-- Witness for C6: with a healthy local server, the first candidate
succeeds, the second is never fetched, and the result carries the
converted payload. -/
theorem C6_transform_polling_witness :
    tryEndpoints 9337 c6Fetch
      = (.ok (fetchJson (c6Fetch (localhostCandidate 9337))), [localhostCandidate 9337]) ∧
    (fetchJson (c6Fetch (localhostCandidate 9337))).outputBase64.isSome = true :=
  ⟨(C6_transform_polling 9337 c6Fetch
      (fun _ => ⟨"/tmp/app.cpuprofile", c6Spawn, "/work", c6Read, rfl⟩)).1 (by decide),
   by decide⟩

/-- Claim C7: on a `start-profiling` message whose external
`startProfiling()` call succeeds, the runtime invokes the capture and
acknowledges with exactly one `profiling-started` event carrying the
current time at the acknowledgment. -/
theorem C7_start_ack (now : Nat) :
    subStart (Except.ok ()) now
      = { calledStartProfiling := true, sends := [.started now] } := rfl

/-- Mutual exclusion of the two panel flags (the three-state toggle). -/
def mutexFlags (s : PanelState) : Bool := !(s.isProfiling && s.isStopping)

/-- The runtime's replies used in the counterexample trace: a successful
start acknowledgment and a successful stop. -/
def c8Reply : PanelMsg → List ProfilerEvent
  | .startProfiling => (subStart (Except.ok ()) 1).sends
  | .stopProfiling _ =>
      subStop (stopRace (Except.ok "/tmp/app.cpuprofile") 100) true
        (fun _ => some "QUJD") (fun _ => some 3)

/-- Press Start, press Stop (while the `profiling-started` acknowledgment
is still in flight), then deliver that acknowledgment. -/
def c8Trace : SysState :=
  sysDeliver 2 (sysPress c8Reply (sysPress c8Reply
    { panel := initialPanelState, inbox := [] }))

/-- Counterexample to claim C8 as stated: the `profiling-started` handler
sets the profiling flag without clearing the stopping flag, so after
pressing Start, pressing Stop before the acknowledgment is delivered, and
then receiving the delayed acknowledgment, the panel reaches a state with
both flags true — not exactly one of idle / profiling / stopping. -/
theorem C8_counterexample :
    c8Trace.panel.isProfiling = true ∧ c8Trace.panel.isStopping = true := by
  decide

/-- Claim C8 (amended): the button press (disabled while stopping), the
`profile-data` handler, and the stop-timer expiry all preserve mutual
exclusion of the profiling and stopping flags, and the
`profiling-started` handler preserves it when it fires outside the
stopping state; a `profiling-started` event delivered while stopping sets
both flags. -/
theorem C8_three_state_toggle (s : PanelState) (d : ProfileData) (now id : Nat)
    (h : mutexFlags s = true) :
    mutexFlags (press s).1 = true ∧
    mutexFlags (subData s d now) = true ∧
    mutexFlags (stopTimerFire s id) = true ∧
    (s.isStopping = false → mutexFlags (subStarted s) = true) := by
  refine ⟨?_, ?_, ?_, ?_⟩
  · obtain ⟨P, S, tmr, msg, trs, nid⟩ := s
    cases P <;> cases S <;> simp_all [mutexFlags, press, onStart, onStop]
  · have hf := subData_flags s d now
    simp [mutexFlags, hf.1, hf.2.1]
  · unfold stopTimerFire
    split <;> simp_all [mutexFlags]
  · intro hS
    simp [mutexFlags, subStarted, hS]

/-- Witness for C8 (amended): the preserved transitions evaluated at the
initial panel state. -/
theorem C8_three_state_toggle_witness :
    mutexFlags (press initialPanelState).1 = true ∧
    mutexFlags (subStarted initialPanelState) = true :=
  ⟨(C8_three_state_toggle initialPanelState {} 0 0 rfl).1,
   (C8_three_state_toggle initialPanelState {} 0 0 rfl).2.2.2 rfl⟩

/-- Claim C9: the first call to the server-start function reads the
configuration, records the port, starts the listener and returns the
handle; any call on a started module returns immediately with the recorded
port and a null handle, without reading the configuration or starting a
second listener — in particular a second call after the first returns the
same port. -/
theorem C9_server_idempotent (cfg : Nat) (p0 : Option Nat) (s : ModuleState) :
    startHermesProfilerServer cfg { started := false, serverPort := p0 }
      = ({ started := true, serverPort := some cfg },
         { port := some cfg, server := true },
         { configRead := true, listenStarted := true }) ∧
    startHermesProfilerServer cfg { s with started := true }
      = ({ s with started := true },
         { port := s.serverPort, server := false },
         { configRead := false, listenStarted := false }) ∧
    (startHermesProfilerServer cfg
       (startHermesProfilerServer cfg { started := false, serverPort := p0 }).1).2.1
      = { port := some cfg, server := false } := by
  refine ⟨?_, ?_, ?_⟩ <;> simp [startHermesProfilerServer]

/-- Claim C10: on a successful stop, the suggested filename in the
`profile-data` event is the last slash-separated segment of the returned
path; an empty path, or a path whose last segment is empty, yields the
default `hermes-profile.trace`. -/
theorem C10_stop_filename (path : String) (rnfsAvailable : Bool)
    (readF : String → Option String) (statF : String → Option Nat) :
    (∃ e, subStop (Except.ok path) rnfsAvailable readF statF = [.data e] ∧
       e.filename = some (stopFilename path)) ∧
    (∀ seg, (splitChar '/' path.data).getLast? = some seg → seg.isEmpty = false →
       stopFilename path = String.mk seg) ∧
    (∀ seg, (splitChar '/' path.data).getLast? = some seg → seg.isEmpty = true →
       stopFilename path = "hermes-profile.trace") ∧
    (path = "" → stopFilename path = "hermes-profile.trace") := by
  refine ⟨⟨_, rfl, rfl⟩, ?_, ?_, ?_⟩
  · intro seg hseg hne
    unfold stopFilename
    rw [hseg]
    simp [hne]
  · intro seg hseg he
    unfold stopFilename
    rw [hseg]
    simp [he]
  · intro h
    subst h
    rfl

/-- Witness for C10: a normal path keeps its last segment, a trailing
slash and the empty path fall back to the default name. -/
theorem C10_stop_filename_witness :
    stopFilename "/sdcard/hermes.trace" = "hermes.trace" ∧
    stopFilename "sdcard/" = "hermes-profile.trace" ∧
    stopFilename "" = "hermes-profile.trace" :=
  ⟨(C10_stop_filename "/sdcard/hermes.trace" true (fun _ => none)
      (fun _ => none)).2.1 "hermes.trace".data (by decide) (by decide),
   (C10_stop_filename "sdcard/" true (fun _ => none)
      (fun _ => none)).2.2.1 [] (by decide) (by decide),
   (C10_stop_filename "" true (fun _ => none) (fun _ => none)).2.2.2 rfl⟩

end HermesProfiler
